import Mathlib

/-
Verification development for the bank-statement parser generator.

The embedding below models, from the source:
  * agent.py      : test_parser (the Verifier), the retry loop in main, and
                    main exit-code behaviour around the one-time setup;
  * test_parser.py: load_parser (the Candidate Loader used by the offline
                    test harness) and the harness comparison
                    (assert_frame_equal with check_dtype=False);
  * custom_parsers/icici_parser.py : clean_and_convert_num.

pandas DataFrames are modelled as an explicit row count plus an ordered list
of named columns; each column (a pandas Series) carries a declared element
dtype and a list of values.  pandas DataFrame.equals / Series.equals require
equal dtypes and treat NaN as equal to NaN at the same position, which in
this model is plain structural equality of the Series structure (NaN is a
value constructor).  The dtype-tolerant comparison of the offline harness
(check_dtype=False) is modelled separately by valEqCoerce, which equates an
int-typed value with a float-typed value of the same numeric magnitude.
-/

/-- A single cell value of a pandas column.  The constructor records the
storage representation (integer cell of an int64 column, float cell of a
float64 column, string cell of an object column, or NaN).  Floats are
modelled as rationals; the values occurring here are exact decimals. -/
inductive Val where
  | vInt (n : Int)
  | vFloat (q : Rat)
  | vStr (s : String)
  | vNaN
  deriving DecidableEq, Repr

/-- Declared element dtype of a pandas Series. -/
inductive Dtype where
  | int64
  | float64
  | obj
  deriving DecidableEq, Repr

/-- A pandas Series after reset_index(drop=True): a declared dtype and the
list of values in row order.  Series.equals is structural equality of this
record (equal dtype and pointwise equal values, NaN equal to NaN). -/
structure Series where
  dtype : Dtype
  vals : List Val
  deriving DecidableEq, Repr

/-- A pandas DataFrame after reset_index(drop=True): the row count and the
ordered list of named columns. -/
structure DF where
  nrows : Nat
  cols : List (String × Series)
  deriving DecidableEq, Repr

/-- df.shape, the (rows, columns) pair. -/
def DF.shape (df : DF) : Nat × Nat := (df.nrows, df.cols.length)

/-- DataFrame.equals of the two tables (both already reset_index): equal
column labels in order, equal row count, equal dtypes and values. -/
def dfEquals (a b : DF) : Bool := decide (a = b)

/-- Column lookup by name, as result_df[col] does after the membership test
col in result_df.columns (column names are unique in the tables at hand). -/
def dfLookup (c : String) : List (String × Series) → Option Series
  | [] => none
  | p :: rest => if p.1 = c then some p.2 else dfLookup c rest

/-- Rendering of a Python shape tuple inside an f-string: str((3, 5)) is
the text (3, 5). -/
def fmtShape (p : Nat × Nat) : String :=
  "(" ++ toString p.1 ++ ", " ++ toString p.2 ++ ")"

/-- The column loop of test_parser in agent.py: walk the expected columns in
order; the first expected column absent from the result yields the missing
column text, the first present column whose Series.equals fails yields the
column mismatch text; if the loop finishes without a break the diff text
stays empty. -/
def colDiff (r : DF) : List (String × Series) → String
  | [] => ""
  | (c, es) :: rest =>
    match dfLookup c r.cols with
    | none => "Missing column: " ++ c
    | some rs =>
      if rs = es then colDiff r rest
      else "Column " ++ c ++ " doesn\x27t match"

/-- The diff text computed by test_parser when the frames are not equal:
shape mismatch first, otherwise the column loop. -/
def diffText (r e : DF) : String :=
  if r.shape ≠ e.shape then
    "Shape mismatch: Result " ++ fmtShape r.shape ++ " vs Expected " ++ fmtShape e.shape
  else colDiff r e.cols

/-- The comparison part of test_parser in agent.py (after the candidate ran
and both frames were reset_index): equal frames pass, otherwise the verdict
is failed with the diff text appended to the fixed prefix. -/
def comparisonVerdict (r e : DF) : Bool × String :=
  if dfEquals r e then (true, "Parser test passed!")
  else (false, "Parser test failed. " ++ diffText r e)

/-- Outcome of running the candidate entry point on the sample PDF inside
the try block of test_parser: either it produced a table or it raised with
a message (this also covers faults while loading the module). -/
inductive ExecOutcome where
  | produced (df : DF)
  | raised (msg : String)
  deriving DecidableEq, Repr

/-- test_parser of agent.py as a function of the execution outcome and the
expected table: every raised fault is caught by the surrounding except and
becomes a failed verdict; nothing propagates out. -/
def testParser (outcome : ExecOutcome) (expected : DF) : Bool × String :=
  match outcome with
  | .raised m => (false, "Error testing parser: " ++ m)
  | .produced r => comparisonVerdict r expected

/-- Value comparison that ignores the declared dtype but not the numeric
magnitude: the element comparison done by assert_frame_equal with
check_dtype=False in test_parser.py. -/
def valEqCoerce : Val → Val → Bool
  | .vInt n, .vInt m => decide (n = m)
  | .vFloat p, .vFloat q => decide (p = q)
  | .vInt n, .vFloat q => decide ((n : Rat) = q)
  | .vFloat q, .vInt n => decide (q = (n : Rat))
  | .vStr s, .vStr t => decide (s = t)
  | .vNaN, .vNaN => true
  | _, _ => false

/-- Pointwise dtype-tolerant equality of two value lists. -/
def valsEqCoerce : List Val → List Val → Bool
  | [], [] => true
  | x :: xs, y :: ys => valEqCoerce x y && valsEqCoerce xs ys
  | _, _ => false

/-- Columnwise dtype-tolerant equality of two column lists (names are
compared separately by the harness). -/
def colsEqCoerce : List (String × Series) → List (String × Series) → Bool
  | [], [] => true
  | p :: ps, q :: qs => valsEqCoerce p.2.vals q.2.vals && colsEqCoerce ps qs
  | _, _ => false

/-- The offline harness comparison in test_parser.py: assert equal shape,
assert equal column lists, then assert_frame_equal with check_dtype=False,
i.e. values compared with dtype coercion. -/
def harnessCompare (r e : DF) : Bool :=
  decide (r.shape = e.shape)
  && decide (r.cols.map Prod.fst = e.cols.map Prod.fst)
  && colsEqCoerce r.cols e.cols

/-- Result of one full run of the retry loop in main (agent.py): the list of
attempt numbers that were executed in order, the final content of the file
at the artifact path (none when it was never written), and whether the loop
ended through the break of a passing attempt. -/
structure LoopResult where
  attempts : List Nat
  artifact : Option String
  passed : Bool
  deriving DecidableEq, Repr

/-- The guard if not parser_code in main: generate_parser_code returning
None or an empty string both skip the attempt (Python falsiness of a
string).  genOk gen k is the code of attempt k iff the attempt proceeds to
the write and to test_parser. -/
def genOk (gen : Nat → Option String) (k : Nat) : Option String :=
  match gen k with
  | none => none
  | some c => if c = "" then none else some c

/-- Attempt k produces a passing verdict: its synthesis yields usable code
and test_parser accepts the code saved at the artifact path. -/
def attemptPasses (gen : Nat → Option String) (test : String → Bool) (k : Nat) : Bool :=
  match genOk gen k with
  | none => false
  | some c => test c

/-- The body of for attempt in range(1, 4) in main, as structural recursion
on the remaining iteration count.  State passed along: the current content
of the artifact file.  Each iteration: synthesize; on usable code write the
file (overwriting), run test_parser, break on success; otherwise continue.
The for-else fallthrough (no break) reports failure. -/
def loopAux (gen : Nat → Option String) (test : String → Bool) :
    Nat → Nat → Option String → LoopResult
  | 0, _, art => ⟨[], art, false⟩
  | fuel + 1, k, art =>
    match genOk gen k with
    | none =>
      let r := loopAux gen test fuel (k + 1) art
      ⟨k :: r.attempts, r.artifact, r.passed⟩
    | some code =>
      if test code then ⟨[k], some code, true⟩
      else
        let r := loopAux gen test fuel (k + 1) (some code)
        ⟨k :: r.attempts, r.artifact, r.passed⟩

/-- The fixed retry bound: range(1, 4) in the source, three attempts. -/
def MAX_ATTEMPTS : Nat := 3

/-- The whole retry loop of main, starting at attempt 1 with the artifact
file not yet written by this run. -/
def runLoop (gen : Nat → Option String) (test : String → Bool) : LoopResult :=
  loopAux gen test MAX_ATTEMPTS 1 none

/-- The one-time setup state main observes before the loop: existence of
the two sample files, the outcome of extract_text_from_pdf (None on
extraction fault) and of analyze_csv_file (None, None on fault). -/
structure SetupEnv where
  pdfExists : Bool
  csvExists : Bool
  extractResult : Option String
  analyzeOk : Bool
  deriving DecidableEq, Repr

/-- main of agent.py as exit code plus loop result: each missing sample
file and each failed setup step hits sys.exit(1); once setup succeeds the
retry loop runs and main returns normally (exit code 0) whatever the loop
outcome. -/
def mainRun (env : SetupEnv) (gen : Nat → Option String) (test : String → Bool) :
    Nat × Option LoopResult :=
  if env.pdfExists = false then (1, none)
  else if env.csvExists = false then (1, none)
  else if env.extractResult = none then (1, none)
  else if env.analyzeOk = false then (1, none)
  else (0, some (runLoop gen test))

/-- A Python exception as observed by the offline harness: its class and
its message. -/
inductive PyErr where
  | attributeError (msg : String)
  | syntaxError (msg : String)
  deriving DecidableEq, Repr

/-- Outcome of load_parser in test_parser.py: pytest.skip when the artifact
file is absent, an error raised during or after the dynamic import, or the
loaded module. -/
inductive LoadOutcome where
  | skip (msg : String)
  | err (e : PyErr)
  | loaded
  deriving DecidableEq, Repr

/-- What the artifact file on disk determines about loading it: whether it
exists, whether executing it raises (a syntax fault in generated code
surfaces here as a SyntaxError), and whether the executed module exposes a
parse attribute. -/
structure ParserFile where
  present : Bool
  execErr : Option PyErr
  hasParse : Bool
  deriving DecidableEq, Repr

/-- load_parser of test_parser.py: skip when the file is missing, propagate
whatever exec_module raises, then raise AttributeError with a fixed message
when the module lacks parse, else return the module. -/
def loadParser (bank : String) (f : ParserFile) : LoadOutcome :=
  if f.present = false then .skip ("No parser found for " ++ bank ++ ", run agent.py first")
  else
    match f.execErr with
    | some e => .err e
    | none =>
      if f.hasParse = false then
        .err (.attributeError "Generated parser does not implement parse(pdf_path)")
      else .loaded

/-- Result of clean_and_convert_num in icici_parser.py: np.nan or a float. -/
inductive NumResult where
  | nan
  | val (q : Rat)
  deriving DecidableEq, Repr

/-- The whitespace set of Python str.strip with no argument (the characters
relevant to the ASCII inputs at hand). -/
def isPySpace (c : Char) : Bool :=
  decide (c = ' ') || decide (c = '\t') || decide (c = '\n') || decide (c = '\r')
    || decide (c = '\x0b') || decide (c = '\x0c')

/-- Python str.strip on a list of characters. -/
def pyStrip (l : List Char) : List Char :=
  ((l.dropWhile isPySpace).reverse.dropWhile isPySpace).reverse

/-- Numeric value of a digit string. -/
def digitsVal (l : List Char) : Nat :=
  l.foldl (fun a c => 10 * a + (c.toNat - 48)) 0

/-- Value of an unsigned decimal literal: integer part plus fractional part
scaled by the number of fractional digits. -/
def decValue (l : List Char) : Rat :=
  (digitsVal (l.takeWhile (fun c => c ≠ '.')) : Rat)
    + (digitsVal ((l.dropWhile (fun c => c ≠ '.')).drop 1) : Rat)
      / ((10 : Rat) ^ ((l.dropWhile (fun c => c ≠ '.')).drop 1).length)

/-- Whether the character list is an unsigned decimal literal accepted by
Python float(): only digits and at most one dot, with at least one digit.
(Other float() syntaxes such as signs, exponents, inf and nan do not arise
from the inputs considered here: the code strips commas from strings of
digits, commas and a decimal point before converting.) -/
def isFloatLit (l : List Char) : Bool :=
  l.all (fun c => c.isDigit || decide (c = '.'))
    && decide (l.count '.' ≤ 1)
    && l.any (fun c => c.isDigit)

/-- Python float() on the decimal-literal fragment: the value on a valid
literal, conversion failure otherwise. -/
def pyFloat (l : List Char) : Option Rat :=
  if isFloatLit l then some (decValue l) else none

/-- clean_and_convert_num of icici_parser.py on a cell (None or a string):
None and whitespace-only strings give np.nan; otherwise commas are removed,
the string is stripped and handed to float(), with conversion failure
giving np.nan. -/
def clean_and_convert_num (v : Option (List Char)) : NumResult :=
  match v with
  | none => .nan
  | some s =>
    if pyStrip s = [] then .nan
    else
      match pyFloat (pyStrip (s.filter (fun c => decide (c ≠ ',')))) with
      | some q => .val q
      | none => .nan

/- §§ Helper lemmas -/

theorem valEqCoerce_self (v : Val) : valEqCoerce v v = true := by
  cases v <;> simp [valEqCoerce]

theorem valsEqCoerce_self (l : List Val) : valsEqCoerce l l = true := by
  induction l with
  | nil => rfl
  | cons x xs ih => simp [valsEqCoerce, valEqCoerce_self, ih]

theorem colsEqCoerce_self (l : List (String × Series)) : colsEqCoerce l l = true := by
  induction l with
  | nil => rfl
  | cons p ps ih => simp [colsEqCoerce, valsEqCoerce_self, ih]

theorem harnessCompare_self (df : DF) : harnessCompare df df = true := by
  simp [harnessCompare, colsEqCoerce_self]

theorem comparisonVerdict_of_ne (r e : DF) (hne : r ≠ e) :
    comparisonVerdict r e = (false, "Parser test failed. " ++ diffText r e) := by
  simp [comparisonVerdict, dfEquals, hne]

/- §§ Claim theorems: the Verifier -/

/-- Claim C1: whenever the two shapes differ, the verdict is failed with the
shape-mismatch reason, which carries both shape tuples literally; no column
name or column value text is ever produced in that case (the reason is
exactly the shape text). -/
theorem shape_mismatch_precedence (r e : DF) (h : r.shape ≠ e.shape) :
    testParser (.produced r) e
      = (false, "Parser test failed. " ++ ("Shape mismatch: Result " ++ fmtShape r.shape
          ++ " vs Expected " ++ fmtShape e.shape)) := by
  have hne : r ≠ e := fun hre => h (by rw [hre])
  show comparisonVerdict r e = _
  rw [comparisonVerdict_of_ne r e hne]
  simp [diffText, h]

/-- A 3-row, 5-column result table. -/
def dfShape35 : DF :=
  ⟨3, [("A", ⟨.float64, [.vNaN, .vNaN, .vNaN]⟩), ("B", ⟨.float64, [.vNaN, .vNaN, .vNaN]⟩),
      ("C", ⟨.float64, [.vNaN, .vNaN, .vNaN]⟩), ("D", ⟨.float64, [.vNaN, .vNaN, .vNaN]⟩),
      ("E", ⟨.float64, [.vNaN, .vNaN, .vNaN]⟩)]⟩

/-- A 5-row, 5-column reference table. -/
def dfShape55 : DF :=
  ⟨5, [("A", ⟨.float64, [.vNaN, .vNaN, .vNaN, .vNaN, .vNaN]⟩),
      ("B", ⟨.float64, [.vNaN, .vNaN, .vNaN, .vNaN, .vNaN]⟩),
      ("C", ⟨.float64, [.vNaN, .vNaN, .vNaN, .vNaN, .vNaN]⟩),
      ("D", ⟨.float64, [.vNaN, .vNaN, .vNaN, .vNaN, .vNaN]⟩),
      ("E", ⟨.float64, [.vNaN, .vNaN, .vNaN, .vNaN, .vNaN]⟩)]⟩

/-- Witness for C1: a 3 by 5 result against a 5 by 5 reference reports both
shapes literally. -/
theorem shape_mismatch_precedence_witness :
    testParser (.produced dfShape35) dfShape55
      = (false, "Parser test failed. Shape mismatch: Result (3, 5) vs Expected (5, 5)") := by
  rw [shape_mismatch_precedence dfShape35 dfShape55 (by decide)]
  rfl

/-- Claim C6: a candidate whose entry point raises is reported as a failed
verdict whose reason appends the raised message to the fixed error prefix;
testParser is total, so the fault never propagates out of the verifier. -/
theorem execution_error_reason (m : String) (e : DF) :
    testParser (.raised m) e = (false, "Error testing parser: " ++ m) := rfl

/-- Result table of the C10 scenario: columns B then A. -/
def dfColsSwapped : DF := ⟨1, [("B", ⟨.int64, [.vInt 2]⟩), ("A", ⟨.int64, [.vInt 1]⟩)]⟩

/-- Reference table of the C10 scenario: columns A then B, same per-name
series as the result. -/
def dfColsOrdered : DF := ⟨1, [("A", ⟨.int64, [.vInt 1]⟩), ("B", ⟨.int64, [.vInt 2]⟩)]⟩

/-- Claim C10: with equal shape, equal column-name sets and equal per-name
column contents but a different column order, the frames are unequal, the
column loop finds nothing to report (empty diff text), and the verdict is
failed with the bare prefix as its whole reason. -/
theorem column_order_empty_diff :
    dfColsSwapped.cols.map Prod.fst = ["B", "A"]
    ∧ dfColsOrdered.cols.map Prod.fst = ["A", "B"]
    ∧ dfColsSwapped.shape = dfColsOrdered.shape
    ∧ dfLookup "A" dfColsSwapped.cols = dfLookup "A" dfColsOrdered.cols
    ∧ dfLookup "B" dfColsSwapped.cols = dfLookup "B" dfColsOrdered.cols
    ∧ colDiff dfColsSwapped dfColsOrdered.cols = ""
    ∧ testParser (.produced dfColsSwapped) dfColsOrdered
        = (false, "Parser test failed. ") := by decide

/-- Result table of the C4 scenario: one Balance column declared int64. -/
def dfIntBal : DF := ⟨1, [("Balance", ⟨.int64, [.vInt 1]⟩)]⟩

/-- Reference table of the C4 scenario: one Balance column declared
float64, numerically identical to the result. -/
def dfFloatBal : DF := ⟨1, [("Balance", ⟨.float64, [.vFloat 1]⟩)]⟩

/-- Counterexample to C4 as stated: equal shape, equal column names and
order, elementwise identical values up to dtype coercion (the harness
comparison accepts the pair), yet the declared dtypes differ and the
verifier of agent.py returns failed, not passed: its Series.equals is
dtype-sensitive. -/
theorem dtype_tolerance_counterexample :
    dfIntBal.shape = dfFloatBal.shape
    ∧ dfIntBal.cols.map Prod.fst = dfFloatBal.cols.map Prod.fst
    ∧ harnessCompare dfIntBal dfFloatBal = true
    ∧ dfIntBal.cols.map (fun p => p.2.dtype) ≠ dfFloatBal.cols.map (fun p => p.2.dtype)
    ∧ testParser (.produced dfIntBal) dfFloatBal
        = (false, "Parser test failed. Column Balance doesn\x27t match") := by decide

/-- Claim C4 amended: the verifier of agent.py passes only structurally
identical frames (dtypes included), and whenever it passes, the
dtype-tolerant comparison of the offline harness passes as well; the
tolerance to declared element types lives in the harness comparison
(check_dtype=False), not in the verifier. -/
theorem strict_pass_implies_tolerant_pass (r e : DF)
    (h : testParser (.produced r) e = (true, "Parser test passed!")) :
    harnessCompare r e = true := by
  have hre : r = e := by
    by_contra hne
    have hv : testParser (.produced r) e
        = (false, "Parser test failed. " ++ diffText r e) := comparisonVerdict_of_ne r e hne
    rw [hv] at h
    exact absurd (congrArg Prod.fst h) (by simp)
  subst hre
  exact harnessCompare_self r

/-- Witness for the amended C4: a concrete passing pair also passes the
tolerant harness comparison. -/
theorem strict_pass_implies_tolerant_pass_witness :
    harnessCompare dfFloatBal dfFloatBal = true :=
  strict_pass_implies_tolerant_pass dfFloatBal dfFloatBal (by decide)

/-- Result table of the C5 scenario as the claim states it: two columns. -/
def dfDateBal : DF :=
  ⟨1, [("Date", ⟨.obj, [.vStr "01-01-2024"]⟩), ("Balance", ⟨.float64, [.vFloat 100]⟩)]⟩

/-- Reference table of the C5 scenario: three columns. -/
def dfDateDescBal : DF :=
  ⟨1, [("Date", ⟨.obj, [.vStr "01-01-2024"]⟩), ("Description", ⟨.obj, [.vStr "X"]⟩),
      ("Balance", ⟨.float64, [.vFloat 100]⟩)]⟩

/-- Counterexample to C5 as stated: with result columns Date and Balance
against reference columns Date, Description and Balance, the column counts
differ (2 against 3), so the shape check fires first and the reason is the
shape text; the missing-column reason naming Description is never reached. -/
theorem missing_column_counterexample :
    dfDateDescBal.cols.map Prod.fst = ["Date", "Description", "Balance"]
    ∧ dfDateBal.cols.map Prod.fst = ["Date", "Balance"]
    ∧ testParser (.produced dfDateBal) dfDateDescBal
        = (false, "Parser test failed. Shape mismatch: Result (1, 2) vs Expected (1, 3)")
    ∧ testParser (.produced dfDateBal) dfDateDescBal
        ≠ (false, "Parser test failed. Missing column: Description") := by decide

/-- Claim C5 amended: the missing-column reason naming Description arises
when the result table has the same shape as the reference (in particular
the same column count), its Date column equals the expected one, and it has
no Description column. -/
theorem missing_column_reason (r e : DF) (sd sx sb : Series)
    (he : e.cols = [("Date", sd), ("Description", sx), ("Balance", sb)])
    (hshape : r.shape = e.shape)
    (hdate : dfLookup "Date" r.cols = some sd)
    (hdesc : dfLookup "Description" r.cols = none) :
    testParser (.produced r) e
      = (false, "Parser test failed. Missing column: Description") := by
  have hne : r ≠ e := by
    intro hre
    rw [hre, he] at hdesc
    simp [dfLookup] at hdesc
  show comparisonVerdict r e = _
  rw [comparisonVerdict_of_ne r e hne]
  rw [diffText, if_neg (by simp [hshape]), he]
  simp [colDiff, hdate, hdesc]

/-- Result table witnessing the amended C5: three columns, Date matching,
no Description. -/
def dfC5Result : DF :=
  ⟨1, [("Date", ⟨.obj, [.vStr "d"]⟩), ("Balance", ⟨.float64, [.vFloat 1]⟩),
      ("Extra", ⟨.obj, [.vStr "x"]⟩)]⟩

/-- Reference table witnessing the amended C5. -/
def dfC5Expected : DF :=
  ⟨1, [("Date", ⟨.obj, [.vStr "d"]⟩), ("Description", ⟨.obj, [.vStr "y"]⟩),
      ("Balance", ⟨.float64, [.vFloat 2]⟩)]⟩

/-- Witness for the amended C5: the concrete equal-width tables produce the
missing-column reason naming Description. -/
theorem missing_column_reason_witness :
    testParser (.produced dfC5Result) dfC5Expected
      = (false, "Parser test failed. Missing column: Description") :=
  missing_column_reason dfC5Result dfC5Expected
    ⟨.obj, [.vStr "d"]⟩ ⟨.obj, [.vStr "y"]⟩ ⟨.float64, [.vFloat 2]⟩
    (by decide) (by decide) (by decide) (by decide)

/- §§ Retry loop lemmas -/

theorem loopAux_step_none (gen : Nat → Option String) (test : String → Bool) (n k : Nat)
    (art : Option String) (h : genOk gen k = none) :
    loopAux gen test (n + 1) k art
      = ⟨k :: (loopAux gen test n (k + 1) art).attempts,
         (loopAux gen test n (k + 1) art).artifact,
         (loopAux gen test n (k + 1) art).passed⟩ := by
  rw [loopAux, h]

theorem loopAux_step_pass (gen : Nat → Option String) (test : String → Bool) (n k : Nat)
    (art : Option String) (c : String) (h : genOk gen k = some c) (ht : test c = true) :
    loopAux gen test (n + 1) k art = ⟨[k], some c, true⟩ := by
  rw [loopAux, h]
  simp [ht]

theorem loopAux_step_fail (gen : Nat → Option String) (test : String → Bool) (n k : Nat)
    (art : Option String) (c : String) (h : genOk gen k = some c) (ht : test c = false) :
    loopAux gen test (n + 1) k art
      = ⟨k :: (loopAux gen test n (k + 1) (some c)).attempts,
         (loopAux gen test n (k + 1) (some c)).artifact,
         (loopAux gen test n (k + 1) (some c)).passed⟩ := by
  rw [loopAux, h]
  simp [ht]

theorem loopAux_mem (gen : Nat → Option String) (test : String → Bool) :
    ∀ (fuel k : Nat) (art : Option String) (a : Nat),
      a ∈ (loopAux gen test fuel k art).attempts → k ≤ a ∧ a < k + fuel := by
  intro fuel
  induction fuel with
  | zero => intro k art a h; simp [loopAux] at h
  | succ n ih =>
    intro k art a h
    rcases hg : genOk gen k with _ | c
    · rw [loopAux_step_none gen test n k art hg] at h
      rcases List.mem_cons.mp h with ha | ha
      · omega
      · have := ih (k + 1) art a ha
        omega
    · by_cases ht : test c
      · rw [loopAux_step_pass gen test n k art c hg ht] at h
        have ha : a = k := by simpa using h
        omega
      · have ht' : test c = false := by simpa using ht
        rw [loopAux_step_fail gen test n k art c hg ht'] at h
        rcases List.mem_cons.mp h with ha | ha
        · omega
        · have := ih (k + 1) (some c) a ha
          omega

theorem loopAux_len (gen : Nat → Option String) (test : String → Bool) :
    ∀ (fuel k : Nat) (art : Option String),
      (loopAux gen test fuel k art).attempts.length ≤ fuel := by
  intro fuel
  induction fuel with
  | zero => intro k art; simp [loopAux]
  | succ n ih =>
    intro k art
    rcases hg : genOk gen k with _ | c
    · rw [loopAux_step_none gen test n k art hg]
      simpa using ih (k + 1) art
    · by_cases ht : test c
      · rw [loopAux_step_pass gen test n k art c hg ht]
        simp
      · have ht' : test c = false := by simpa using ht
        rw [loopAux_step_fail gen test n k art c hg ht']
        simpa using ih (k + 1) (some c)

theorem loopAux_pass (gen : Nat → Option String) (test : String → Bool) :
    ∀ (fuel k : Nat) (art : Option String) (a : Nat),
      a ∈ (loopAux gen test fuel k art).attempts →
      attemptPasses gen test a = true →
      (loopAux gen test fuel k art).passed = true
        ∧ a + 1 ∉ (loopAux gen test fuel k art).attempts := by
  intro fuel
  induction fuel with
  | zero => intro k art a h; simp [loopAux] at h
  | succ n ih =>
    intro k art a h hp
    rcases hg : genOk gen k with _ | c
    · rw [loopAux_step_none gen test n k art hg] at h ⊢
      rcases List.mem_cons.mp h with ha | ha
      · subst ha
        rw [attemptPasses, hg] at hp
        simp at hp
      · have hbounds := loopAux_mem gen test n (k + 1) art a ha
        have hih := ih (k + 1) art a ha hp
        refine ⟨hih.1, ?_⟩
        intro hmem
        rcases List.mem_cons.mp hmem with hx | hx
        · omega
        · exact hih.2 hx
    · by_cases ht : test c
      · rw [loopAux_step_pass gen test n k art c hg ht] at h ⊢
        have ha : a = k := by simpa using h
        subst ha
        refine ⟨rfl, ?_⟩
        intro hmem
        simp at hmem
      · have ht' : test c = false := by simpa using ht
        rw [loopAux_step_fail gen test n k art c hg ht'] at h ⊢
        rcases List.mem_cons.mp h with ha | ha
        · subst ha
          rw [attemptPasses, hg] at hp
          rw [show test c = true from hp] at ht'
          exact absurd ht' (by simp)
        · have hbounds := loopAux_mem gen test n (k + 1) (some c) a ha
          have hih := ih (k + 1) (some c) a ha hp
          refine ⟨hih.1, ?_⟩
          intro hmem
          rcases List.mem_cons.mp hmem with hx | hx
          · omega
          · exact hih.2 hx

theorem loopAux_exhaust (gen : Nat → Option String) (test : String → Bool) :
    ∀ (fuel k : Nat) (art : Option String),
      (∀ a, k ≤ a → a < k + fuel → attemptPasses gen test a = false) →
      (loopAux gen test fuel k art).attempts = List.range' k fuel
        ∧ (loopAux gen test fuel k art).passed = false := by
  intro fuel
  induction fuel with
  | zero => intro k art _; simp [loopAux]
  | succ n ih =>
    intro k art hfail
    have hrest : ∀ a, k + 1 ≤ a → a < k + 1 + n → attemptPasses gen test a = false := by
      intro a h1 h2
      exact hfail a (by omega) (by omega)
    rcases hg : genOk gen k with _ | c
    · have hihr := ih (k + 1) art hrest
      rw [loopAux_step_none gen test n k art hg]
      refine ⟨?_, hihr.2⟩
      show k :: (loopAux gen test n (k + 1) art).attempts = List.range' k (n + 1)
      rw [hihr.1, List.range'_succ]
    · have hk : test c = false := by
        have hf := hfail k (le_refl k) (by omega)
        rw [attemptPasses, hg] at hf
        exact hf
      have hihr := ih (k + 1) (some c) hrest
      rw [loopAux_step_fail gen test n k art c hg hk]
      refine ⟨?_, hihr.2⟩
      show k :: (loopAux gen test n (k + 1) (some c)).attempts = List.range' k (n + 1)
      rw [hihr.1, List.range'_succ]

theorem loopAux_artifact (gen : Nat → Option String) (test : String → Bool) :
    ∀ (fuel k : Nat) (art : Option String),
      (loopAux gen test fuel k art).artifact
        = (((loopAux gen test fuel k art).attempts.filterMap (genOk gen)).getLast?).or art := by
  intro fuel
  induction fuel with
  | zero => intro k art; simp [loopAux, Option.or]
  | succ n ih =>
    intro k art
    rcases hg : genOk gen k with _ | c
    · rw [loopAux_step_none gen test n k art hg]
      show (loopAux gen test n (k + 1) art).artifact
          = (((k :: (loopAux gen test n (k + 1) art).attempts).filterMap (genOk gen)).getLast?).or art
      simp only [List.filterMap_cons, hg]
      exact ih (k + 1) art
    · by_cases ht : test c
      · rw [loopAux_step_pass gen test n k art c hg ht]
        show some c = ((([k] : List Nat).filterMap (genOk gen)).getLast?).or art
        simp [List.filterMap_cons, hg, Option.or]
      · have ht' : test c = false := by simpa using ht
        rw [loopAux_step_fail gen test n k art c hg ht']
        show (loopAux gen test n (k + 1) (some c)).artifact
            = (((k :: (loopAux gen test n (k + 1) (some c)).attempts).filterMap (genOk gen)).getLast?).or art
        simp only [List.filterMap_cons, hg]
        rw [ih (k + 1) (some c)]
        rcases hl : ((loopAux gen test n (k + 1) (some c)).attempts.filterMap (genOk gen)) with _ | ⟨x, xs⟩
        · simp [Option.or]
        · rw [List.getLast?_cons_cons]
          have hy : ∃ y, (x :: xs).getLast? = some y :=
            ⟨(x :: xs).getLast (by simp), List.getLast?_eq_getLast _ (by simp)⟩
          rcases hy with ⟨y, hy⟩
          rw [hy]
          rfl

/- §§ Claim theorems: the Retry Controller -/

/-- Claim C2: every run of the retry loop makes at most MAX_ATTEMPTS = 3
attempts, all numbered between 1 and 3; whenever an executed attempt
produces a passing verdict the loop reports passed and the next attempt
number is never executed (short-circuit on first pass); and when attempts
1, 2 and 3 all fail, the executed attempts are exactly 1, 2, 3 — no fourth
attempt — and the loop reports failed. -/
theorem retry_bound_short_circuit (gen : Nat → Option String) (test : String → Bool) :
    ((runLoop gen test).attempts.length ≤ MAX_ATTEMPTS
      ∧ ∀ a ∈ (runLoop gen test).attempts, 1 ≤ a ∧ a ≤ 3)
    ∧ (∀ a ∈ (runLoop gen test).attempts, attemptPasses gen test a = true →
        (runLoop gen test).passed = true ∧ a + 1 ∉ (runLoop gen test).attempts)
    ∧ ((∀ a ∈ ([1, 2, 3] : List Nat), attemptPasses gen test a = false) →
        (runLoop gen test).attempts = [1, 2, 3]
          ∧ (runLoop gen test).passed = false
          ∧ 4 ∉ (runLoop gen test).attempts) := by
  refine ⟨⟨loopAux_len gen test MAX_ATTEMPTS 1 none, ?_⟩, ?_, ?_⟩
  · intro a ha
    have := loopAux_mem gen test MAX_ATTEMPTS 1 none a ha
    rw [MAX_ATTEMPTS] at this
    omega
  · intro a ha hp
    exact loopAux_pass gen test MAX_ATTEMPTS 1 none a ha hp
  · intro hfail
    have hfail' : ∀ a, 1 ≤ a → a < 1 + MAX_ATTEMPTS → attemptPasses gen test a = false := by
      intro a h1 h2
      rw [MAX_ATTEMPTS] at h2
      have : a ∈ ([1, 2, 3] : List Nat) := by
        interval_cases a <;> simp
      exact hfail a this
    have h := loopAux_exhaust gen test MAX_ATTEMPTS 1 none hfail'
    refine ⟨h.1, h.2, ?_⟩
    show 4 ∉ (loopAux gen test MAX_ATTEMPTS 1 none).attempts
    rw [h.1]
    decide

/-- Synthesis stub for the C2 witness: every attempt yields code "X". -/
def genAllX : Nat → Option String := fun _ => some "X"

/-- Verdict stub for the C2 witness: every candidate fails. -/
def testNever : String → Bool := fun _ => false

/-- Witness for C2: with three failing attempts the loop executes exactly
attempts 1, 2, 3, reports failed, and makes no fourth attempt. -/
theorem retry_bound_short_circuit_witness :
    (runLoop genAllX testNever).attempts = [1, 2, 3]
      ∧ (runLoop genAllX testNever).passed = false
      ∧ 4 ∉ (runLoop genAllX testNever).attempts :=
  (retry_bound_short_circuit genAllX testNever).2.2 (by decide)

/-- Synthesis stub for the C3 counterexample: attempt 1 yields code "A",
attempts 2 and 3 yield no code. -/
def genOnlyFirst : Nat → Option String := fun k => if k = 1 then some "A" else none

/-- Counterexample to C3 as stated: in a run whose last executed attempt is
attempt 3 and whose attempt 3 synthesis returned no code, the artifact on
disk still holds attempt 1 code "A" — the file does not contain code
generated by the last attempt, because an attempt with no code never
writes. -/
theorem artifact_last_attempt_counterexample :
    (runLoop genOnlyFirst testNever).attempts.getLast? = some 3
    ∧ genOnlyFirst 3 = none
    ∧ (runLoop genOnlyFirst testNever).artifact = some "A" := by decide

/-- Claim C3 amended: after the loop, in every run and whatever the
pass/fail outcome, the artifact file holds exactly the most recently
generated usable code over the executed attempts (attempts whose synthesis
returned no code, or empty code, leave the file unchanged), and the file
was never written when no attempt generated usable code. -/
theorem artifact_is_last_generated (gen : Nat → Option String) (test : String → Bool) :
    (runLoop gen test).artifact
      = ((runLoop gen test).attempts.filterMap (genOk gen)).getLast? := by
  have h := loopAux_artifact gen test MAX_ATTEMPTS 1 none
  show (loopAux gen test MAX_ATTEMPTS 1 none).artifact
      = ((loopAux gen test MAX_ATTEMPTS 1 none).attempts.filterMap (genOk gen)).getLast?
  rw [h]
  rcases ((loopAux gen test MAX_ATTEMPTS 1 none).attempts.filterMap (genOk gen)).getLast? with _ | c
  · rfl
  · rfl

/- §§ Claim theorems: main exit behaviour -/

/-- Claim C7: main exits 0 exactly when both sample files exist, the PDF
text extraction succeeded and the CSV analysis succeeded; in that case the
retry loop runs and main completes with exit code 0 whatever the loop
outcome, including the exhausted-after-3-attempts case; in every other case
main exits 1 before the loop. -/
theorem exit_code_contract (env : SetupEnv) (gen : Nat → Option String) (test : String → Bool) :
    ((mainRun env gen test).1 = 0
      ↔ (env.pdfExists = true ∧ env.csvExists = true
          ∧ env.extractResult ≠ none ∧ env.analyzeOk = true))
    ∧ ((mainRun env gen test).1 = 0 ∨ (mainRun env gen test).1 = 1)
    ∧ (env.pdfExists = true → env.csvExists = true → env.extractResult ≠ none →
        env.analyzeOk = true → mainRun env gen test = (0, some (runLoop gen test))) := by
  rcases env with ⟨p, c, ext, an⟩
  cases p <;> cases c <;> cases an <;> rcases ext with _ | t <;> simp [mainRun]

/-- Setup state for the C7 witness: everything present and analyzed. -/
def envAllGood : SetupEnv := ⟨true, true, some "sample text", true⟩

/-- Witness for C7: with good setup and three failing attempts, main
completes with exit code 0 and the loop result is the exhausted one. -/
theorem exit_code_contract_witness :
    mainRun envAllGood genAllX testNever = (0, some (runLoop genAllX testNever))
      ∧ (runLoop genAllX testNever).passed = false :=
  ⟨(exit_code_contract envAllGood genAllX testNever).2.2 rfl rfl (by simp [envAllGood]) rfl,
    by decide⟩

/- §§ Claim theorems: the Candidate Loader -/

/-- Claim C8: a candidate module that executes cleanly but lacks a parse
attribute is reported through the fixed AttributeError of load_parser,
while a candidate whose source has a syntax fault is reported through the
SyntaxError its execution raises; the two reports differ (distinct
exception class), whatever the syntax message is. -/
theorem load_failure_distinct (bank : String) (f g : ParserFile) (m : String)
    (hf1 : f.present = true) (hf2 : f.execErr = none) (hf3 : f.hasParse = false)
    (hg1 : g.present = true) (hg2 : g.execErr = some (.syntaxError m)) :
    loadParser bank f
        = .err (.attributeError "Generated parser does not implement parse(pdf_path)")
    ∧ loadParser bank g = .err (.syntaxError m)
    ∧ loadParser bank f ≠ loadParser bank g := by
  refine ⟨?_, ?_, ?_⟩
  · simp [loadParser, hf1, hf2, hf3]
  · simp [loadParser, hg1, hg2]
  · simp [loadParser, hf1, hf2, hf3, hg1, hg2]

/-- Artifact state for the C8 witness: loads cleanly, no parse attribute. -/
def fileNoParse : ParserFile := ⟨true, none, false⟩

/-- Artifact state for the C8 witness: its execution raises a SyntaxError. -/
def fileSyntaxErr : ParserFile := ⟨true, some (.syntaxError "invalid syntax"), true⟩

/-- Witness for C8 at concrete artifact states. -/
theorem load_failure_distinct_witness :
    loadParser "icici" fileNoParse
        = .err (.attributeError "Generated parser does not implement parse(pdf_path)")
    ∧ loadParser "icici" fileSyntaxErr = .err (.syntaxError "invalid syntax")
    ∧ loadParser "icici" fileNoParse ≠ loadParser "icici" fileSyntaxErr :=
  load_failure_distinct "icici" fileNoParse fileSyntaxErr "invalid syntax" rfl rfl rfl rfl rfl

/- §§ Numeric normalization lemmas -/

theorem digit_not_space (c : Char) (h : c.isDigit = true) : isPySpace c = false := by
  have h1 : c ≠ ' ' := by rintro rfl; exact absurd h (by decide)
  have h2 : c ≠ '\t' := by rintro rfl; exact absurd h (by decide)
  have h3 : c ≠ '\n' := by rintro rfl; exact absurd h (by decide)
  have h4 : c ≠ '\r' := by rintro rfl; exact absurd h (by decide)
  have h5 : c ≠ '\x0b' := by rintro rfl; exact absurd h (by decide)
  have h6 : c ≠ '\x0c' := by rintro rfl; exact absurd h (by decide)
  simp [isPySpace, h1, h2, h3, h4, h5, h6]

theorem dropWhile_of_forall_false (p : Char → Bool) (l : List Char)
    (h : ∀ c ∈ l, p c = false) : l.dropWhile p = l := by
  cases l with
  | nil => rfl
  | cons a t =>
    rw [List.dropWhile_cons, h a (List.mem_cons_self a t)]
    simp

theorem pyStrip_eq_self (l : List Char) (h : ∀ c ∈ l, isPySpace c = false) :
    pyStrip l = l := by
  rw [pyStrip, dropWhile_of_forall_false _ _ h]
  rw [dropWhile_of_forall_false _ _ (fun c hc => h c (List.mem_reverse.mp hc))]
  exact List.reverse_reverse l

theorem count_dot_filter_comma (l : List Char) :
    (l.filter (fun c => decide (c ≠ ','))).count '.' = l.count '.' := by
  induction l with
  | nil => rfl
  | cons a t ih =>
    by_cases ha : a = ','
    · subst ha
      rw [List.filter_cons]
      simp [List.count_cons, ih]
    · rw [List.filter_cons]
      simp [ha, List.count_cons, ih]

theorem pyFloat_of_lit (l : List Char) (h : isFloatLit l = true) :
    pyFloat l = some (decValue l) := by
  simp [pyFloat, h]

theorem clean_convert_of_digits (l : List Char)
    (hall : ∀ c ∈ l, c.isDigit = true ∨ c = ',' ∨ c = '.')
    (hcount : l.count '.' ≤ 1)
    (hdig : ∃ c ∈ l, c.isDigit = true) :
    clean_and_convert_num (some l)
      = .val (decValue (l.filter (fun c => decide (c ≠ ',')))) := by
  have hns : ∀ c ∈ l, isPySpace c = false := by
    intro c hc
    rcases hall c hc with h | h | h
    · exact digit_not_space c h
    · subst h; decide
    · subst h; decide
  have hne : l ≠ [] := by
    rcases hdig with ⟨c, hc, _⟩
    exact List.ne_nil_of_mem hc
  have hstrip : pyStrip l = l := pyStrip_eq_self l hns
  have hfsub : ∀ c ∈ l.filter (fun c => decide (c ≠ ',')), c ∈ l :=
    fun c hc => (List.mem_filter.mp hc).1
  have hstrip2 : pyStrip (l.filter (fun c => decide (c ≠ ',')))
      = l.filter (fun c => decide (c ≠ ',')) :=
    pyStrip_eq_self _ (fun c hc => hns c (hfsub c hc))
  have hlit : isFloatLit (l.filter (fun c => decide (c ≠ ','))) = true := by
    rw [isFloatLit]
    simp only [Bool.and_eq_true, List.all_eq_true, List.any_eq_true, decide_eq_true_eq]
    refine ⟨⟨?_, ?_⟩, ?_⟩
    · intro c hc
      rcases hall c (hfsub c hc) with h | h | h
      · simp [h]
      · have hmem := (List.mem_filter.mp hc).2
        rw [h] at hmem
        simp at hmem
      · simp [h]
    · rw [count_dot_filter_comma]
      exact hcount
    · rcases hdig with ⟨c, hc, hcd⟩
      have hcne : c ≠ ',' := by
        rintro rfl
        exact absurd hcd (by decide)
      exact ⟨c, List.mem_filter.mpr ⟨hc, by simp [hcne]⟩, hcd⟩
  show (if pyStrip l = [] then NumResult.nan
      else match pyFloat (pyStrip (l.filter (fun c => decide (c ≠ ',')))) with
        | some q => NumResult.val q
        | none => NumResult.nan)
    = NumResult.val (decValue (l.filter (fun c => decide (c ≠ ','))))
  rw [hstrip, if_neg hne, hstrip2, pyFloat_of_lit _ hlit]

/- §§ Claim theorems: numeric normalization of the example candidate -/

/-- Claim C9: clean_and_convert_num maps the amount text 1,000.00 to the
number 1000, maps the empty string and a missing (None) cell to the NaN
marker and never to the number 0, and on every string of digits, commas
and at most one decimal point containing at least one digit it yields the
decimal value of the string with its commas removed (never NaN and never a
spurious 0 for a nonzero literal). -/
theorem numeric_normalization :
    clean_and_convert_num (some ("1,000.00".data)) = .val 1000
    ∧ clean_and_convert_num (some ("".data)) = .nan
    ∧ clean_and_convert_num none = .nan
    ∧ clean_and_convert_num (some ("".data)) ≠ .val 0
    ∧ clean_and_convert_num none ≠ .val 0
    ∧ ∀ l : List Char, (∀ c ∈ l, c.isDigit = true ∨ c = ',' ∨ c = '.') →
        l.count '.' ≤ 1 → (∃ c ∈ l, c.isDigit = true) →
        clean_and_convert_num (some l)
          = .val (decValue (l.filter (fun c => decide (c ≠ ',')))) := by
  refine ⟨?_, by decide, by decide, by decide, by decide, clean_convert_of_digits⟩
  have h : clean_and_convert_num (some ("1,000.00".data))
      = .val (decValue ("1000.00".data)) := rfl
  rw [h]
  have ht : ("1000.00".data.takeWhile (fun c => decide (c ≠ '.'))) = "1000".data := by decide
  have hd : (("1000.00".data.dropWhile (fun c => decide (c ≠ '.'))).drop 1) = "00".data := by decide
  have h1 : digitsVal ("1000".data) = 1000 := by decide
  have h2 : digitsVal ("00".data) = 0 := by decide
  have h3 : ("00".data).length = 2 := by decide
  rw [decValue, ht, hd, h1, h2, h3]
  norm_num

/-- Witness for C9: the digits-and-comma string 2,5 normalizes to the
number 25 through the universally quantified part of the claim. -/
theorem numeric_normalization_witness :
    clean_and_convert_num (some ['2', ',', '5']) = NumResult.val 25 := by
  have h := numeric_normalization.2.2.2.2.2 ['2', ',', '5'] (by decide) (by decide) (by decide)
  have hf : (['2', ',', '5'].filter (fun c => decide (c ≠ ','))) = ['2', '5'] := by decide
  rw [hf] at h
  rw [h]
  have ht : (['2', '5'].takeWhile (fun c => decide (c ≠ '.'))) = ['2', '5'] := by decide
  have hd : ((['2', '5'].dropWhile (fun c => decide (c ≠ '.'))).drop 1) = ([] : List Char) := by decide
  have h1 : digitsVal ['2', '5'] = 25 := by decide
  have h2 : digitsVal ([] : List Char) = 0 := by decide
  rw [decValue, ht, hd, h1, h2]
  norm_num

